import Mathlib

/-!
Verification of the context-window management subsystem and the streaming
tool-dispatch loop of the `ai-power-ecom` backend.

The definitions below are a shallow embedding of:
  * `backend/app/services/context_manager.py` — token-budgeted context
    building with summarization of the older prefix;
  * `backend/app/api/chat.py` — the SSE streaming endpoint with its
    tool-dispatch loop and guardrails.

External collaborators (the tiktoken token counter, the summarizer LLM, the
chat LLM, the tool implementations) are modelled as function parameters, so
every theorem quantifies over their behaviour; concrete instantiations appear
in the witness theorems.
-/

namespace ECom

/-- A persisted message row (`app/models.py` `Message`): only the fields the
context manager reads (`role`, `content`). -/
structure Message where
  role : String
  content : String
deriving Repr, DecidableEq

/-- A tool-call request emitted by the model: `tool_call["name"]`,
`tool_call["args"]` (opaque payload), `tool_call["id"]`. -/
structure ToolCall where
  name : String
  args : String
  id : String
deriving Repr, DecidableEq

/-- LangChain message objects as the code uses them: `HumanMessage`,
`AIMessage` (with its `tool_calls` list), `SystemMessage`, `ToolMessage`
(tagged with `tool_call_id` and tool `name`). -/
inductive LCMessage where
  | human (content : String)
  | ai (content : String) (tool_calls : List ToolCall)
  | system (content : String)
  | tool (content : String) (tool_call_id : String) (name : String)
deriving Repr, DecidableEq

/-- The `.content` attribute common to all LangChain message classes. -/
def LCMessage.content : LCMessage → String
  | .human c => c
  | .ai c _ => c
  | .system c => c
  | .tool c _ _ => c

/-- `isinstance(m, SystemMessage)`. -/
def LCMessage.isSystem : LCMessage → Bool
  | .system _ => true
  | _ => false

/-- `isinstance(m, ToolMessage)`. -/
def LCMessage.isToolMsg : LCMessage → Bool
  | .tool _ _ _ => true
  | _ => false

-- ── context_manager.py ───────────────────────────────────────────────────────

/-- `MAX_HISTORY_TOKENS` (context_manager.py line 34). -/
def MAX_HISTORY_TOKENS : Nat := 4000

/-- `MIN_RECENT_MESSAGES` (context_manager.py line 38). -/
def MIN_RECENT_MESSAGES : Nat := 6

/-- `messages_to_langchain` (context_manager.py lines 53-61): role `"user"`
becomes a `HumanMessage`, any other role becomes an `AIMessage`. -/
def messages_to_langchain (db_messages : List Message) : List LCMessage :=
  db_messages.map fun msg =>
    if msg.role = "user" then LCMessage.human msg.content
    else LCMessage.ai msg.content []

/-- The system prompt handed to the summarizer LLM (context_manager.py
lines 118-122). -/
def SUMMARIZE_PROMPT : String :=
  "Summarize this shopping conversation in 2-3 sentences. " ++
  "Focus on: what products were discussed, user preferences, " ++
  "and any items added to cart. Be specific about product names and prices."

/-- `summarize_messages` (context_manager.py lines 102-126). The summarizer
LLM call `summarizer.ainvoke` is the parameter `ainvoke`; it can fail with a
provider error `ε`, which the function does not catch. -/
def summarize_messages {ε : Type} (ainvoke : List LCMessage → Except ε String)
    (messages : List LCMessage) : Except ε String :=
  let conversation_text := String.intercalate "\n"
    (messages.map fun m =>
      (match m with
       | LCMessage.human _ => "User"
       | _ => "Assistant") ++ ": " ++ m.content)
  ainvoke [LCMessage.system SUMMARIZE_PROMPT, LCMessage.human conversation_text]

/-- `build_context` (context_manager.py lines 64-99), instrumented: the second
component counts how many times the summarizer was invoked (0 or 1), so that
"never invokes the summarizer" is expressible. `count` is the tiktoken
`count_tokens`. `lc_messages[-MIN_RECENT_MESSAGES:]` is `drop (n - 6)` and
`lc_messages[:-MIN_RECENT_MESSAGES]` is `take (n - 6)`. -/
def build_context {ε : Type} (count : String → Nat)
    (ainvoke : List LCMessage → Except ε String)
    (db_messages : List Message) : Except ε (List LCMessage) × Nat :=
  if db_messages = [] then (Except.ok [], 0)
  else
    let lc_messages := messages_to_langchain db_messages
    let total_tokens := (lc_messages.map fun m => count m.content).sum
    if total_tokens ≤ MAX_HISTORY_TOKENS then (Except.ok lc_messages, 0)
    else
      let recent := lc_messages.drop (lc_messages.length - MIN_RECENT_MESSAGES)
      let old := lc_messages.take (lc_messages.length - MIN_RECENT_MESSAGES)
      if old = [] then (Except.ok recent, 0)
      else
        match summarize_messages ainvoke old with
        | Except.error e => (Except.error e, 1)
        | Except.ok summary =>
            (Except.ok (LCMessage.system
              ("Summary of earlier conversation:\n" ++ summary) :: recent), 1)

-- ── Helper lemmas about the normalizer ───────────────────────────────────────

lemma messages_to_langchain_length (db_messages : List Message) :
    (messages_to_langchain db_messages).length = db_messages.length := by
  simp [messages_to_langchain]

lemma messages_to_langchain_content (db_messages : List Message) :
    (messages_to_langchain db_messages).map LCMessage.content
      = db_messages.map Message.content := by
  induction db_messages with
  | nil => rfl
  | cons m ms ih =>
      by_cases h : m.role = "user" <;>
        simp [messages_to_langchain, h, LCMessage.content] at ih ⊢ <;>
        simpa [messages_to_langchain] using ih

lemma messages_to_langchain_no_system (db_messages : List Message) :
    (messages_to_langchain db_messages).all (fun m => !m.isSystem) = true := by
  induction db_messages with
  | nil => rfl
  | cons m ms ih =>
      by_cases h : m.role = "user" <;>
        simp [messages_to_langchain, h, LCMessage.isSystem] at ih ⊢ <;>
        simpa [messages_to_langchain] using ih

-- ── Claim theorems: context manager ──────────────────────────────────────────

/-- C10: the message normalizer maps every persisted message whose role is not
exactly "user" to an assistant turn — each output turn is a user turn iff the
stored role equals "user" and an assistant turn otherwise, so no
system-directive or tool-result turn is ever reconstructed from the log. -/
theorem messages_to_langchain_roles (db_messages : List Message) :
    List.Forall₂ (fun (msg : Message) (t : LCMessage) =>
        (msg.role = "user" ∧ t = LCMessage.human msg.content) ∨
        (msg.role ≠ "user" ∧ t = LCMessage.ai msg.content []))
      db_messages (messages_to_langchain db_messages) := by
  induction db_messages with
  | nil => simp [messages_to_langchain]
  | cons m ms ih =>
      refine List.Forall₂.cons ?_ ih
      by_cases h : m.role = "user" <;> simp [messages_to_langchain, h]

/-- C2: for every history whose total token count is at most
`MAX_HISTORY_TOKENS`, `build_context` returns the normalized history
unchanged — same turns, same order, same content — with no synthesized
summary turn and no summarizer invocation. -/
theorem build_context_under_budget {ε : Type} (count : String → Nat)
    (ainvoke : List LCMessage → Except ε String) (db_messages : List Message)
    (h : ((messages_to_langchain db_messages).map fun m => count m.content).sum
        ≤ MAX_HISTORY_TOKENS) :
    build_context count ainvoke db_messages
        = (Except.ok (messages_to_langchain db_messages), 0) ∧
    (messages_to_langchain db_messages).map LCMessage.content
        = db_messages.map Message.content ∧
    (messages_to_langchain db_messages).all (fun m => !m.isSystem) = true := by
  refine ⟨?_, messages_to_langchain_content db_messages,
    messages_to_langchain_no_system db_messages⟩
  by_cases hd : db_messages = []
  · subst hd; simp [build_context, messages_to_langchain]
  · simp [build_context, hd, h]

/-- C2 witness: a concrete 3-turn history under budget is returned verbatim. -/
theorem build_context_under_budget_witness :
    build_context (fun s => s.length)
        (fun _ => (Except.ok "digest" : Except Unit String))
        [⟨"user", "Show me rain jackets"⟩, ⟨"assistant", "Here are two."⟩,
         ⟨"user", "Price of the first one?"⟩]
      = (Except.ok (messages_to_langchain
          [⟨"user", "Show me rain jackets"⟩, ⟨"assistant", "Here are two."⟩,
           ⟨"user", "Price of the first one?"⟩]), 0) ∧
    (messages_to_langchain
        [⟨"user", "Show me rain jackets"⟩, ⟨"assistant", "Here are two."⟩,
         ⟨"user", "Price of the first one?"⟩]).map LCMessage.content
      = [Message.mk "user" "Show me rain jackets",
         Message.mk "assistant" "Here are two.",
         Message.mk "user" "Price of the first one?"].map Message.content ∧
    (messages_to_langchain
        [⟨"user", "Show me rain jackets"⟩, ⟨"assistant", "Here are two."⟩,
         ⟨"user", "Price of the first one?"⟩]).all (fun m => !m.isSystem)
      = true :=
  build_context_under_budget (fun s => s.length)
    (fun _ => (Except.ok "digest" : Except Unit String)) _ (by decide)

/-- C6: for every history whose turn count is at most `MIN_RECENT_MESSAGES`,
regardless of total token count, `build_context` never invokes the summarizer
and returns the normalized turns unchanged. -/
theorem build_context_few_turns {ε : Type} (count : String → Nat)
    (ainvoke : List LCMessage → Except ε String) (db_messages : List Message)
    (h : db_messages.length ≤ MIN_RECENT_MESSAGES) :
    build_context count ainvoke db_messages
      = (Except.ok (messages_to_langchain db_messages), 0) := by
  by_cases hd : db_messages = []
  · subst hd; simp [build_context, messages_to_langchain]
  · by_cases hb : ((messages_to_langchain db_messages).map
        fun m => count m.content).sum ≤ MAX_HISTORY_TOKENS
    · simp [build_context, hd, hb]
    · have hlen : (messages_to_langchain db_messages).length
          - MIN_RECENT_MESSAGES = 0 := by
        have := messages_to_langchain_length db_messages
        omega
      simp [build_context, hd, hb, hlen]

/-- C6 witness: two turns, each individually over the budget (token counter
returning 5000 per turn), are returned unchanged with zero summarizer calls. -/
theorem build_context_few_turns_witness :
    build_context (fun _ => 5000)
        (fun _ => (Except.ok "digest" : Except Unit String))
        [⟨"user", "a"⟩, ⟨"assistant", "b"⟩]
      = (Except.ok (messages_to_langchain [⟨"user", "a"⟩, ⟨"assistant", "b"⟩]), 0) :=
  build_context_few_turns (fun _ => 5000)
    (fun _ => (Except.ok "digest" : Except Unit String)) _ (by decide)

lemma build_context_old_ne_nil (db_messages : List Message)
    (hlen : MIN_RECENT_MESSAGES < db_messages.length) :
    (messages_to_langchain db_messages).take
      ((messages_to_langchain db_messages).length - MIN_RECENT_MESSAGES) ≠ [] := by
  intro hnil
  rcases List.take_eq_nil_iff.mp hnil with h | h
  · have := messages_to_langchain_length db_messages
    omega
  · have := messages_to_langchain_length db_messages
    rw [h] at this
    simp at this
    omega

/-- C1: for every history with total token count above `MAX_HISTORY_TOKENS`
and more than `MIN_RECENT_MESSAGES` turns, when the summarizer succeeds with
digest `s`, `build_context` returns exactly `MIN_RECENT_MESSAGES + 1` turns:
a synthesized system turn whose text begins with "Summary of earlier
conversation" followed by the digest, then the last `MIN_RECENT_MESSAGES`
turns of the input in original order with original content. -/
theorem build_context_over_budget {ε : Type} (count : String → Nat)
    (ainvoke : List LCMessage → Except ε String) (db_messages : List Message)
    (s : String)
    (hlen : MIN_RECENT_MESSAGES < db_messages.length)
    (htot : MAX_HISTORY_TOKENS <
      ((messages_to_langchain db_messages).map fun m => count m.content).sum)
    (hsum : summarize_messages ainvoke
        ((messages_to_langchain db_messages).take
          ((messages_to_langchain db_messages).length - MIN_RECENT_MESSAGES))
      = Except.ok s) :
    build_context count ainvoke db_messages
      = (Except.ok (LCMessage.system ("Summary of earlier conversation:\n" ++ s) ::
          (messages_to_langchain db_messages).drop
            ((messages_to_langchain db_messages).length - MIN_RECENT_MESSAGES)), 1) ∧
    ((messages_to_langchain db_messages).drop
        ((messages_to_langchain db_messages).length - MIN_RECENT_MESSAGES)).length
      = MIN_RECENT_MESSAGES ∧
    ((messages_to_langchain db_messages).drop
          ((messages_to_langchain db_messages).length - MIN_RECENT_MESSAGES)).map
        LCMessage.content
      = (db_messages.map Message.content).drop
          (db_messages.length - MIN_RECENT_MESSAGES) ∧
    ∃ rest, "Summary of earlier conversation:\n" ++ s
      = "Summary of earlier conversation" ++ rest := by
  have hd : db_messages ≠ [] := by
    intro h; rw [h] at hlen; simp [MIN_RECENT_MESSAGES] at hlen
  have hb : ¬ ((messages_to_langchain db_messages).map
      fun m => count m.content).sum ≤ MAX_HISTORY_TOKENS := by omega
  have hold := build_context_old_ne_nil db_messages hlen
  refine ⟨?_, ?_, ?_, ?_⟩
  · simp only [build_context, hd, if_false, if_neg hb, if_neg hold, hsum]
  · rw [List.length_drop, messages_to_langchain_length]
    omega
  · rw [List.map_drop, messages_to_langchain_content, messages_to_langchain_length]
  · refine ⟨":\n" ++ s, ?_⟩
    rw [← String.append_assoc]
    have h : ("Summary of earlier conversation" ++ ":\n" : String)
        = "Summary of earlier conversation:\n" := by decide
    rw [h]

/-- A 7-turn concrete history used by the over-budget witnesses. -/
def dbSeven : List Message :=
  [⟨"user", "m1"⟩, ⟨"assistant", "m2"⟩, ⟨"user", "m3"⟩, ⟨"assistant", "m4"⟩,
   ⟨"user", "m5"⟩, ⟨"assistant", "m6"⟩, ⟨"user", "m7"⟩]

/-- C1 witness: 7 turns, 1000 tokens each (7000 > 4000), summarizer returning
"digest": the result is the summary turn plus the last 6 turns. -/
theorem build_context_over_budget_witness :
    build_context (fun _ => 1000)
        (fun _ => (Except.ok "digest" : Except Unit String)) dbSeven
      = (Except.ok (LCMessage.system ("Summary of earlier conversation:\n" ++ "digest") ::
          (messages_to_langchain dbSeven).drop
            ((messages_to_langchain dbSeven).length - MIN_RECENT_MESSAGES)), 1) ∧
    ((messages_to_langchain dbSeven).drop
        ((messages_to_langchain dbSeven).length - MIN_RECENT_MESSAGES)).length
      = MIN_RECENT_MESSAGES ∧
    ((messages_to_langchain dbSeven).drop
          ((messages_to_langchain dbSeven).length - MIN_RECENT_MESSAGES)).map
        LCMessage.content
      = (dbSeven.map Message.content).drop (dbSeven.length - MIN_RECENT_MESSAGES) ∧
    ∃ rest, "Summary of earlier conversation:\n" ++ "digest"
      = "Summary of earlier conversation" ++ rest :=
  build_context_over_budget (fun _ => 1000)
    (fun _ => (Except.ok "digest" : Except Unit String)) dbSeven "digest"
    (by decide) (by decide) (by rfl)

/-- C8: if the summarizer call fails on the older prefix, the failure
propagates out of `build_context` as a catchable error — it is never
swallowed into an empty or fabricated summary turn. -/
theorem summarizer_failure_propagates {ε : Type} (count : String → Nat)
    (ainvoke : List LCMessage → Except ε String) (db_messages : List Message)
    (e : ε)
    (hlen : MIN_RECENT_MESSAGES < db_messages.length)
    (htot : MAX_HISTORY_TOKENS <
      ((messages_to_langchain db_messages).map fun m => count m.content).sum)
    (hsum : summarize_messages ainvoke
        ((messages_to_langchain db_messages).take
          ((messages_to_langchain db_messages).length - MIN_RECENT_MESSAGES))
      = Except.error e) :
    build_context count ainvoke db_messages = (Except.error e, 1) := by
  have hd : db_messages ≠ [] := by
    intro h; rw [h] at hlen; simp [MIN_RECENT_MESSAGES] at hlen
  have hb : ¬ ((messages_to_langchain db_messages).map
      fun m => count m.content).sum ≤ MAX_HISTORY_TOKENS := by omega
  have hold := build_context_old_ne_nil db_messages hlen
  simp only [build_context, hd, if_false, if_neg hb, if_neg hold, hsum]

/-- C8 witness: 7 turns over budget with a summarizer that fails with error
code 42: `build_context` surfaces exactly that error. -/
theorem summarizer_failure_propagates_witness :
    build_context (fun _ => 1000)
        (fun _ => (Except.error 42 : Except Nat String)) dbSeven
      = (Except.error 42, 1) :=
  summarizer_failure_propagates (fun _ => 1000)
    (fun _ => (Except.error 42 : Except Nat String)) dbSeven 42
    (by decide) (by decide) (by rfl)

-- ── api/chat.py: the streaming tool-dispatch loop ───────────────────────────

/-- `MAX_TOOL_ROUNDS` (chat.py line 25). -/
def MAX_TOOL_ROUNDS : Nat := 5

/-- `MAX_MESSAGE_LENGTH` (chat.py line 26), in characters. -/
def MAX_MESSAGE_LENGTH : Nat := 2000

/-- The `FRIENDLY_NAMES` dict (chat.py lines 35-42). -/
def FRIENDLY_NAMES (tool_name : String) : Option String :=
  if tool_name = "search_products" then some "Searching products..."
  else if tool_name = "get_product_details" then some "Getting product details..."
  else if tool_name = "add_to_cart" then some "Adding to cart..."
  else if tool_name = "remove_from_cart" then some "Removing from cart..."
  else if tool_name = "get_current_cart" then some "Checking your cart..."
  else if tool_name = "compare_products" then some "Comparing products..."
  else none

/-- `FRIENDLY_NAMES.get(tool_name, f"Running {tool_name}...")` (chat.py
line 110). -/
def friendlyStatus (tool_name : String) : String :=
  (FRIENDLY_NAMES tool_name).getD ("Running " ++ tool_name ++ "...")

/-- The SSE events the endpoint emits (chat.py: `status`, `token`,
`cart_updated`, `done`). -/
inductive SSEEvent where
  | status (content : String)
  | token (content : String)
  | cart_updated
  | done (conversation_id : String)
deriving Repr, DecidableEq

/-- Whether an event is the terminal `done` event. -/
def SSEEvent.isDone : SSEEvent → Bool
  | .done _ => true
  | _ => false

/-- One LLM response: `.content` plus `.tool_calls`. -/
structure ModelResponse where
  content : String
  tool_calls : List ToolCall
deriving Repr, DecidableEq

/-- `TOOL_MAP` as a lookup (graph.py line 74): `none` models a tool name
absent from the registry (a `KeyError` on lookup); a registered tool may
itself fail, modelled by `Except`. -/
abbrev ToolRegistry := String → Option (String → Except String String)

/-- The `try/except` around one tool invocation (chat.py lines 113-118): the
tool's result on success, the fixed short error string when the lookup or the
invocation raises. -/
def toolResultString (tools : ToolRegistry) (tc : ToolCall) : String :=
  match tools tc.name with
  | none => "Tool error: unable to complete " ++ tc.name ++ ". Please try again."
  | some tool_fn =>
    match tool_fn tc.args with
    | Except.ok result => result
    | Except.error _ =>
        "Tool error: unable to complete " ++ tc.name ++ ". Please try again."

/-- `tool_name in ("add_to_cart", "remove_from_cart", "clear_cart")` (chat.py
line 120). -/
def cartMutating (tool_name : String) : Bool :=
  tool_name == "add_to_cart" || tool_name == "remove_from_cart" ||
    tool_name == "clear_cart"

/-- The `for tool_call in response.tool_calls` body (chat.py lines 106-127):
per call, a status event, the guarded execution, optionally a `cart_updated`
event, and the appended `ToolMessage` tagged with the call id and name.
Returns (events in emission order, tool-result turns in append order). -/
def processToolCalls (tools : ToolRegistry) :
    List ToolCall → List SSEEvent × List LCMessage
  | [] => ([], [])
  | tc :: rest =>
    let result := toolResultString tools tc
    let evs := SSEEvent.status (friendlyStatus tc.name) ::
      (if cartMutating tc.name then [SSEEvent.cart_updated] else [])
    let r := processToolCalls tools rest
    (evs ++ r.1, LCMessage.tool result tc.id tc.name :: r.2)

/-- The canned fallback when the round ceiling is exceeded (chat.py line 98). -/
def LOST_MESSAGE : String :=
  "I got a bit lost processing your request. Could you try rephrasing?"

/-- What one run of the `while True` loop (chat.py lines 85-142) produces:
the events yielded, the final `current_messages`, the final `full_response`,
and how many times the LLM collaborator was invoked (`ainvoke` and `astream`
each count as one invocation). -/
structure LoopResult where
  events : List SSEEvent
  messages : List LCMessage
  full_response : String
  invocations : Nat
deriving Repr, DecidableEq

/-- The `while True` dispatch loop (chat.py lines 85-142). `model` is
`llm_with_tools.ainvoke`; `stream` is `llm_with_tools.astream`, returning the
chunk contents in order. Empty-string chunks are neither emitted nor
accumulated (`if token:` at line 138). The zero-tool-call branch makes one
`ainvoke` and one `astream` call, hence 2 invocations; the ceiling branch
made only its `ainvoke`, hence 1; a processed tool round adds 1 to the
recursive total. -/
def dispatchLoop (model : List LCMessage → ModelResponse)
    (stream : List LCMessage → List String) (tools : ToolRegistry)
    (msgs : List LCMessage) (fullResp : String) (toolRounds : Nat) : LoopResult :=
  let response := model msgs
  if response.tool_calls = [] then
    let chunks := stream msgs
    { events := SSEEvent.status "" ::
        chunks.filterMap (fun t => if t = "" then none else some (SSEEvent.token t)),
      messages := msgs,
      full_response := fullResp ++ String.join (chunks.filter (fun t => t != "")),
      invocations := 2 }
  else if h : toolRounds + 1 > MAX_TOOL_ROUNDS then
    { events := [SSEEvent.status "", SSEEvent.token LOST_MESSAGE],
      messages := msgs,
      full_response := LOST_MESSAGE,
      invocations := 1 }
  else
    let step := processToolCalls tools response.tool_calls
    let r := dispatchLoop model stream tools
      (msgs ++ LCMessage.ai response.content response.tool_calls :: step.2)
      fullResp (toolRounds + 1)
    { events := step.1 ++ r.events,
      messages := r.messages,
      full_response := r.full_response,
      invocations := r.invocations + 1 }
termination_by MAX_TOOL_ROUNDS + 1 - toolRounds
decreasing_by simp [MAX_TOOL_ROUNDS] at h ⊢; omega

/-- `SYSTEM_PROMPT` (graph.py lines 26-45). -/
def SYSTEM_PROMPT : String :=
  "You are a concise, helpful outdoor gear shopping assistant.\n\n" ++
  "## Core Principle\n" ++
  "You can ONLY discuss products returned by search_products. Never invent or assume products exist. When in doubt, search first.\n\n" ++
  "## Displaying Products\n" ++
  "- Format: [ID:7] UltraLight 20F Sleeping Bag — $149.99\n" ++
  "- The [ID:X] tag is critical — always include it. It's how you track products across turns.\n" ++
  "- When the user refers to \"the first one\" or \"the cheaper one\", look up the [ID:X] tag in your earlier messages to resolve the correct product.\n\n" ++
  "## Cart Operations\n" ++
  "- Adding: If only one product matches, add it directly. If ambiguous, ask which one.\n" ++
  "- Removing: Call get_current_cart first to see what's there. If multiple items match \"remove the boots\", ask which one. If the user says \"all\", remove each one.\n" ++
  "- Wrong item added: Immediately remove_from_cart the wrong item, add_to_cart the right one, and briefly apologize.\n\n" ++
  "## Style\n" ++
  "- Be concise. Use bullet points for product lists.\n" ++
  "- When comparing, highlight price, weight, and key feature differences.\n" ++
  "- Redirect off-topic questions politely.\n"

/-- What `event_generator` (chat.py lines 67-151) produces for the caller. -/
structure GenResult where
  events : List SSEEvent
  messages : List LCMessage
  full_response : String
  invocations : Nat
deriving Repr, DecidableEq

/-- `event_generator` (chat.py lines 67-151): prepend the system prompt when
no system message is present, run the dispatch loop, then always emit the
terminal `done` event carrying the conversation id. -/
def event_generator (model : List LCMessage → ModelResponse)
    (stream : List LCMessage → List String) (tools : ToolRegistry)
    (messages : List LCMessage) (conversation_id : String) : GenResult :=
  let current_messages :=
    if messages.any LCMessage.isSystem then messages
    else LCMessage.system SYSTEM_PROMPT :: messages
  let r := dispatchLoop model stream tools current_messages "" 0
  { events := r.events ++ [SSEEvent.done conversation_id],
    messages := r.messages,
    full_response := r.full_response,
    invocations := r.invocations }


lemma processToolCalls_no_done (tools : ToolRegistry) (tcs : List ToolCall) :
    ∀ e ∈ (processToolCalls tools tcs).1, e.isDone = false := by
  induction tcs with
  | nil => intro e he; simp [processToolCalls] at he
  | cons tc rest ih =>
      intro e he
      by_cases h : cartMutating tc.name = true
      · simp [processToolCalls, h] at he
        rcases he with he | he | he
        · subst he; rfl
        · subst he; rfl
        · exact ih e he
      · simp [processToolCalls, h] at he
        rcases he with he | he
        · subst he; rfl
        · exact ih e he

lemma tokens_no_done (chunks : List String) :
    ∀ e ∈ chunks.filterMap
        (fun t => if t = "" then none else some (SSEEvent.token t)),
      e.isDone = false := by
  intro e he
  rcases List.mem_filterMap.mp he with ⟨t, _, ht⟩
  by_cases h : t = "" <;> simp [h] at ht
  rw [← ht]; rfl

lemma dispatchLoop_no_done (model : List LCMessage → ModelResponse)
    (stream : List LCMessage → List String) (tools : ToolRegistry)
    (msgs : List LCMessage) (fr : String) (tr : Nat) :
    (dispatchLoop model stream tools msgs fr tr).events.countP
      (fun e => e.isDone) = 0 := by
  induction msgs, fr, tr using dispatchLoop.induct model stream tools with
  | case1 msgs fr tr response h =>
      rw [dispatchLoop, if_pos h]
      dsimp only
      refine List.countP_eq_zero.mpr ?_
      intro e he
      rcases List.mem_cons.mp he with rfl | he
      · simp [SSEEvent.isDone]
      · simpa using tokens_no_done (stream msgs) e he
  | case2 msgs fr tr response h h2 =>
      rw [dispatchLoop, if_neg h, dif_pos h2]
      rfl
  | case3 msgs fr tr response h h2 step ih =>
      rw [dispatchLoop, if_neg h, dif_neg h2]
      dsimp only
      rw [List.countP_append]
      have h1 : (processToolCalls tools (model msgs).tool_calls).1.countP
          (fun e => e.isDone) = 0 :=
        List.countP_eq_zero.mpr (fun e he => by
          simpa using processToolCalls_no_done tools (model msgs).tool_calls e he)
      rw [h1]
      simpa using ih

lemma dispatchLoop_invocations_pos (model : List LCMessage → ModelResponse)
    (stream : List LCMessage → List String) (tools : ToolRegistry)
    (msgs : List LCMessage) (fr : String) (tr : Nat) :
    1 ≤ (dispatchLoop model stream tools msgs fr tr).invocations := by
  rw [dispatchLoop]
  split
  · dsimp only; omega
  · split
    · dsimp only; omega
    · dsimp only; omega

lemma dispatchLoop_messages_extend (model : List LCMessage → ModelResponse)
    (stream : List LCMessage → List String) (tools : ToolRegistry)
    (msgs : List LCMessage) (fr : String) (tr : Nat) :
    ∃ rest, (dispatchLoop model stream tools msgs fr tr).messages
      = msgs ++ rest := by
  induction msgs, fr, tr using dispatchLoop.induct model stream tools with
  | case1 msgs fr tr response h =>
      exact ⟨[], by rw [dispatchLoop, if_pos h]; simp⟩
  | case2 msgs fr tr response h h2 =>
      exact ⟨[], by rw [dispatchLoop, if_neg h, dif_pos h2]; simp⟩
  | case3 msgs fr tr response h h2 step ih =>
      obtain ⟨rest, hrest⟩ := ih
      refine ⟨LCMessage.ai response.content response.tool_calls
        :: step.2 ++ rest, ?_⟩
      rw [dispatchLoop, if_neg h, dif_neg h2]
      dsimp only
      rw [hrest]
      simp

lemma processToolCalls_length (tools : ToolRegistry) (tcs : List ToolCall) :
    (processToolCalls tools tcs).2.length = tcs.length := by
  induction tcs with
  | nil => rfl
  | cons tc rest ih => simp [processToolCalls, ih]

lemma processToolCalls_tags (tools : ToolRegistry) (tcs : List ToolCall) :
    List.Forall₂ (fun tc tm =>
        tm = LCMessage.tool (toolResultString tools tc) tc.id tc.name)
      tcs (processToolCalls tools tcs).2 := by
  induction tcs with
  | nil => simp [processToolCalls]
  | cons tc rest ih =>
      simp only [processToolCalls]
      exact List.Forall₂.cons rfl ih

-- ── Claim theorems: dispatch loop ────────────────────────────────────────────

/-- C3 counterexample: with a model whose response carries zero tool calls,
the loop does NOT make exactly one model invocation: the code first calls
`ainvoke` (line 86, discarding its text) and then calls `astream` over the
same messages (line 134) — two LLM invocations. -/
theorem dispatch_single_round_cex :
    (event_generator (fun _ => ⟨"Hello!", []⟩) (fun _ => ["Hel", "lo!"])
      (fun _ => none) [LCMessage.human "hi"] "c1").invocations ≠ 1 := by
  have h : (event_generator (fun _ => ⟨"Hello!", []⟩) (fun _ => ["Hel", "lo!"])
      (fun _ => none) [LCMessage.human "hi"] "c1").invocations = 2 := by
    unfold event_generator
    dsimp only
    rw [dispatchLoop, if_pos rfl]
  omega

/-- C3 as amended: when the model's (first) response carries zero tool-call
requests, the loop terminates after exactly one dispatch round making exactly
two model invocations — the non-streaming `ainvoke` whose text is discarded,
then the streaming `astream` that produces the final answer — and the caller
receives exactly one terminal `done` event. -/
theorem dispatch_single_round (model : List LCMessage → ModelResponse)
    (stream : List LCMessage → List String) (tools : ToolRegistry)
    (messages : List LCMessage) (conversation_id : String)
    (h : (model (if messages.any LCMessage.isSystem then messages
        else LCMessage.system SYSTEM_PROMPT :: messages)).tool_calls = []) :
    (event_generator model stream tools messages conversation_id).invocations
        = 2 ∧
    ((event_generator model stream tools messages
        conversation_id).events.countP (fun e => e.isDone)) = 1 := by
  constructor
  · unfold event_generator
    dsimp only
    rw [dispatchLoop, if_pos h]
  · unfold event_generator
    dsimp only
    rw [List.countP_append, dispatchLoop_no_done]
    rfl

/-- C3 witness: concrete zero-tool-call model; the loop makes 2 invocations
and emits exactly one done event. -/
theorem dispatch_single_round_witness :
    (event_generator (fun _ => ⟨"Hi there!", []⟩) (fun _ => ["Hi ", "there!"])
        (fun _ => none) [LCMessage.human "hello"] "c2").invocations = 2 ∧
    ((event_generator (fun _ => ⟨"Hi there!", []⟩) (fun _ => ["Hi ", "there!"])
        (fun _ => none) [LCMessage.human "hello"] "c2").events.countP
      (fun e => e.isDone)) = 1 :=
  dispatch_single_round (fun _ => ⟨"Hi there!", []⟩) (fun _ => ["Hi ", "there!"])
    (fun _ => none) [LCMessage.human "hello"] "c2" rfl

lemma dispatchLoop_all_tool_calls (model : List LCMessage → ModelResponse)
    (stream : List LCMessage → List String) (tools : ToolRegistry)
    (hm : ∀ ms, (model ms).tool_calls ≠ []) :
    ∀ (k : Nat) (msgs : List LCMessage) (fr : String) (tr : Nat),
      tr + k = MAX_TOOL_ROUNDS + 1 → 1 ≤ k →
      (dispatchLoop model stream tools msgs fr tr).invocations = k ∧
      (dispatchLoop model stream tools msgs fr tr).full_response
          = LOST_MESSAGE ∧
      SSEEvent.token LOST_MESSAGE
          ∈ (dispatchLoop model stream tools msgs fr tr).events := by
  intro k
  induction k with
  | zero => intro msgs fr tr h1 h2; omega
  | succ k ih =>
      intro msgs fr tr h1 h2
      by_cases hk : k = 0
      · subst hk
        have htr : tr + 1 > MAX_TOOL_ROUNDS := by omega
        rw [dispatchLoop, if_neg (hm msgs), dif_pos htr]
        exact ⟨rfl, rfl, by simp⟩
      · have htr : ¬ tr + 1 > MAX_TOOL_ROUNDS := by omega
        rw [dispatchLoop, if_neg (hm msgs), dif_neg htr]
        dsimp only
        obtain ⟨h1', h2', h3'⟩ := ih _ fr (tr + 1) (by omega) (by omega)
        exact ⟨by rw [h1'], h2', List.mem_append.mpr (Or.inr h3')⟩

/-- C4: a model that requests at least one tool call on every invocation
drives the loop to terminate after exactly `MAX_TOOL_ROUNDS + 1` (= 6) model
invocations, with the non-empty canned fallback as the final message, the
fallback emitted as a token event, and exactly one terminal done event —
never an unbounded number of rounds. -/
theorem dispatch_round_ceiling (model : List LCMessage → ModelResponse)
    (stream : List LCMessage → List String) (tools : ToolRegistry)
    (messages : List LCMessage) (conversation_id : String)
    (hm : ∀ ms, (model ms).tool_calls ≠ []) :
    (event_generator model stream tools messages conversation_id).invocations
        = MAX_TOOL_ROUNDS + 1 ∧
    (event_generator model stream tools messages
        conversation_id).full_response = LOST_MESSAGE ∧
    LOST_MESSAGE ≠ "" ∧
    SSEEvent.token LOST_MESSAGE
        ∈ (event_generator model stream tools messages conversation_id).events ∧
    ((event_generator model stream tools messages
        conversation_id).events.countP (fun e => e.isDone)) = 1 := by
  obtain ⟨h1, h2, h3⟩ := dispatchLoop_all_tool_calls model stream tools hm
    (MAX_TOOL_ROUNDS + 1)
    (if messages.any LCMessage.isSystem then messages
      else LCMessage.system SYSTEM_PROMPT :: messages) "" 0 (by omega) (by omega)
  refine ⟨?_, ?_, by decide, ?_, ?_⟩
  · unfold event_generator; dsimp only; exact h1
  · unfold event_generator; dsimp only; exact h2
  · unfold event_generator; dsimp only
    exact List.mem_append.mpr (Or.inl h3)
  · unfold event_generator; dsimp only
    rw [List.countP_append, dispatchLoop_no_done]
    rfl

/-- C4 witness: a concrete model that always requests one `search_products`
call: 6 invocations, the fallback message, and one done event. -/
theorem dispatch_round_ceiling_witness :
    (event_generator (fun _ => ⟨"", [⟨"search_products", "q", "c-1"⟩]⟩)
        (fun _ => []) (fun _ => none) [LCMessage.human "hi"] "c3").invocations
        = MAX_TOOL_ROUNDS + 1 ∧
    (event_generator (fun _ => ⟨"", [⟨"search_products", "q", "c-1"⟩]⟩)
        (fun _ => []) (fun _ => none) [LCMessage.human "hi"]
        "c3").full_response = LOST_MESSAGE ∧
    LOST_MESSAGE ≠ "" ∧
    SSEEvent.token LOST_MESSAGE
        ∈ (event_generator (fun _ => ⟨"", [⟨"search_products", "q", "c-1"⟩]⟩)
            (fun _ => []) (fun _ => none) [LCMessage.human "hi"] "c3").events ∧
    ((event_generator (fun _ => ⟨"", [⟨"search_products", "q", "c-1"⟩]⟩)
        (fun _ => []) (fun _ => none) [LCMessage.human "hi"]
        "c3").events.countP (fun e => e.isDone)) = 1 :=
  dispatch_round_ceiling (fun _ => ⟨"", [⟨"search_products", "q", "c-1"⟩]⟩)
    (fun _ => []) (fun _ => none) [LCMessage.human "hi"] "c3"
    (fun _ => List.cons_ne_nil _ _)

lemma dispatchLoop_single_call_count (model : List LCMessage → ModelResponse)
    (stream : List LCMessage → List String) (tools : ToolRegistry)
    (tc : ToolCall) (hm : ∀ ms, (model ms).tool_calls = [tc]) :
    ∀ (k : Nat) (msgs : List LCMessage) (fr : String) (tr : Nat),
      tr + k = MAX_TOOL_ROUNDS + 1 → 1 ≤ k →
      (dispatchLoop model stream tools msgs fr tr).invocations = k ∧
      (dispatchLoop model stream tools msgs fr tr).messages.countP
        (fun m => m.isToolMsg) = msgs.countP (fun m => m.isToolMsg) + (k - 1) := by
  intro k
  induction k with
  | zero => intro msgs fr tr h1 h2; omega
  | succ k ih =>
      intro msgs fr tr h1 h2
      have hnz : (model msgs).tool_calls ≠ [] := by
        rw [hm msgs]; exact List.cons_ne_nil _ _
      by_cases hk : k = 0
      · subst hk
        have htr : tr + 1 > MAX_TOOL_ROUNDS := by omega
        rw [dispatchLoop, if_neg hnz, dif_pos htr]
        exact ⟨rfl, by simp⟩
      · have htr : ¬ tr + 1 > MAX_TOOL_ROUNDS := by omega
        rw [dispatchLoop, if_neg hnz, dif_neg htr]
        dsimp only
        obtain ⟨h1', h2'⟩ := ih _ fr (tr + 1) (by omega) (by omega)
        refine ⟨by rw [h1'], ?_⟩
        rw [h2', hm msgs]
        simp [processToolCalls, List.countP_append, List.countP_cons,
          LCMessage.isToolMsg]
        omega

/-- C5 counterexample: with a model that answers every invocation with
exactly one tool-call request, the run makes 6 model invocations — six
responses each carrying one tool-call request — yet only 5 tool-result turns
are ever appended: the response received after the round ceiling is hit has
its tool calls dropped, so it is not the case that every model response
carrying N tool calls gets N appended tool-result turns. -/
theorem tool_results_cex :
    (event_generator (fun _ => ⟨"", [⟨"mystery_tool", "q", "call-1"⟩]⟩)
        (fun _ => []) (fun _ => none) [LCMessage.human "hi"] "c4").invocations
      = 6 ∧
    (event_generator (fun _ => ⟨"", [⟨"mystery_tool", "q", "call-1"⟩]⟩)
        (fun _ => []) (fun _ => none) [LCMessage.human "hi"]
        "c4").messages.countP (fun m => m.isToolMsg) = 5 := by
  obtain ⟨h1, h2⟩ := dispatchLoop_single_call_count
    (fun _ => ⟨"", [⟨"mystery_tool", "q", "call-1"⟩]⟩) (fun _ => [])
    (fun _ => none) ⟨"mystery_tool", "q", "call-1"⟩ (fun _ => rfl)
    (MAX_TOOL_ROUNDS + 1)
    (LCMessage.system SYSTEM_PROMPT :: [LCMessage.human "hi"]) "" 0
    (by omega) (by omega)
  constructor
  · unfold event_generator
    rw [if_neg (by decide)]
    exact h1
  · unfold event_generator
    rw [if_neg (by decide)]
    dsimp only
    rw [h2]
    rfl

/-- C5 as amended: for every model response carrying N tool-call requests
that is processed within the round ceiling (round counter at most
`MAX_TOOL_ROUNDS` after incrementing), exactly N tool-result turns are
appended, in the order the requests were emitted, each tagged with the
originating call id and tool name, and the batch is placed immediately after
the single assistant turn that requested it, which is appended once. (The
response that trips the ceiling has its requests dropped — see the
counterexample.) -/
theorem tool_results_batch (model : List LCMessage → ModelResponse)
    (stream : List LCMessage → List String) (tools : ToolRegistry)
    (msgs : List LCMessage) (fr : String) (tr : Nat)
    (hnz : (model msgs).tool_calls ≠ []) (hle : tr + 1 ≤ MAX_TOOL_ROUNDS) :
    (processToolCalls tools (model msgs).tool_calls).2.length
        = (model msgs).tool_calls.length ∧
    List.Forall₂ (fun tc tm =>
        tm = LCMessage.tool (toolResultString tools tc) tc.id tc.name)
      (model msgs).tool_calls
      (processToolCalls tools (model msgs).tool_calls).2 ∧
    ∃ rest, (dispatchLoop model stream tools msgs fr tr).messages
      = msgs ++ (LCMessage.ai (model msgs).content (model msgs).tool_calls
          :: (processToolCalls tools (model msgs).tool_calls).2) ++ rest := by
  refine ⟨processToolCalls_length _ _, processToolCalls_tags _ _, ?_⟩
  have hgt : ¬ tr + 1 > MAX_TOOL_ROUNDS := by omega
  rw [dispatchLoop, if_neg hnz, dif_neg hgt]
  dsimp only
  obtain ⟨rest, hrest⟩ := dispatchLoop_messages_extend model stream tools
    (msgs ++ LCMessage.ai (model msgs).content (model msgs).tool_calls
      :: (processToolCalls tools (model msgs).tool_calls).2) fr (tr + 1)
  exact ⟨rest, by rw [hrest]⟩

/-- C5 witness: a response with two tool calls within the ceiling: both
tool-result turns appended in order after the single assistant turn. -/
theorem tool_results_batch_witness :
    (processToolCalls (fun _ => none)
        ((fun (_ : List LCMessage) =>
          (⟨"t2", [⟨"search_products", "a", "i1"⟩, ⟨"add_to_cart", "b", "i2"⟩]⟩
            : ModelResponse)) [LCMessage.human "x"]).tool_calls).2.length
      = ((fun (_ : List LCMessage) =>
          (⟨"t2", [⟨"search_products", "a", "i1"⟩, ⟨"add_to_cart", "b", "i2"⟩]⟩
            : ModelResponse)) [LCMessage.human "x"]).tool_calls.length ∧
    List.Forall₂ (fun tc tm =>
        tm = LCMessage.tool (toolResultString (fun _ => none) tc) tc.id tc.name)
      ((fun (_ : List LCMessage) =>
        (⟨"t2", [⟨"search_products", "a", "i1"⟩, ⟨"add_to_cart", "b", "i2"⟩]⟩
          : ModelResponse)) [LCMessage.human "x"]).tool_calls
      (processToolCalls (fun _ => none)
        ((fun (_ : List LCMessage) =>
          (⟨"t2", [⟨"search_products", "a", "i1"⟩, ⟨"add_to_cart", "b", "i2"⟩]⟩
            : ModelResponse)) [LCMessage.human "x"]).tool_calls).2 ∧
    ∃ rest, (dispatchLoop
        (fun _ => ⟨"t2", [⟨"search_products", "a", "i1"⟩, ⟨"add_to_cart", "b", "i2"⟩]⟩)
        (fun _ => []) (fun _ => none) [LCMessage.human "x"] "" 0).messages
      = [LCMessage.human "x"]
        ++ (LCMessage.ai ((fun (_ : List LCMessage) =>
              (⟨"t2", [⟨"search_products", "a", "i1"⟩, ⟨"add_to_cart", "b", "i2"⟩]⟩
                : ModelResponse)) [LCMessage.human "x"]).content
              ((fun (_ : List LCMessage) =>
              (⟨"t2", [⟨"search_products", "a", "i1"⟩, ⟨"add_to_cart", "b", "i2"⟩]⟩
                : ModelResponse)) [LCMessage.human "x"]).tool_calls
            :: (processToolCalls (fun _ => none)
              ((fun (_ : List LCMessage) =>
                (⟨"t2", [⟨"search_products", "a", "i1"⟩, ⟨"add_to_cart", "b", "i2"⟩]⟩
                  : ModelResponse)) [LCMessage.human "x"]).tool_calls).2) ++ rest :=
  tool_results_batch
    (fun _ => ⟨"t2", [⟨"search_products", "a", "i1"⟩, ⟨"add_to_cart", "b", "i2"⟩]⟩)
    (fun _ => []) (fun _ => none) [LCMessage.human "x"] "" 0
    (List.cons_ne_nil _ _) (by decide)

/-- C7: when a tool invocation fails — the tool name is absent from the
registry (a `KeyError` on `TOOL_MAP` lookup) or the registered tool raises —
the failure is converted into the short fixed error string recorded as that
call's tool-result turn (tagged with the call id and tool name, never the raw
error), and the loop continues to a further model invocation instead of
terminating. -/
theorem tool_failure_handled (model : List LCMessage → ModelResponse)
    (stream : List LCMessage → List String) (tools : ToolRegistry)
    (msgs : List LCMessage) (fr : String) (tr : Nat) (tc : ToolCall)
    (hcalls : (model msgs).tool_calls = [tc])
    (hfail : tools tc.name = none ∨
      ∃ tool_fn e, tools tc.name = some tool_fn ∧
        tool_fn tc.args = Except.error e)
    (hle : tr + 1 ≤ MAX_TOOL_ROUNDS) :
    toolResultString tools tc
        = "Tool error: unable to complete " ++ tc.name ++
          ". Please try again." ∧
    (∃ rest, (dispatchLoop model stream tools msgs fr tr).messages
      = msgs ++ [LCMessage.ai (model msgs).content [tc],
          LCMessage.tool ("Tool error: unable to complete " ++ tc.name ++
            ". Please try again.") tc.id tc.name] ++ rest) ∧
    2 ≤ (dispatchLoop model stream tools msgs fr tr).invocations := by
  have herr : toolResultString tools tc
      = "Tool error: unable to complete " ++ tc.name ++ ". Please try again." := by
    rcases hfail with h | ⟨tool_fn, e, hf, he⟩
    · simp [toolResultString, h]
    · simp [toolResultString, hf, he]
  have hgt : ¬ tr + 1 > MAX_TOOL_ROUNDS := by omega
  have hnz : (model msgs).tool_calls ≠ [] := by
    rw [hcalls]; exact List.cons_ne_nil _ _
  refine ⟨herr, ?_, ?_⟩
  · rw [dispatchLoop, if_neg hnz, dif_neg hgt]
    dsimp only
    obtain ⟨rest, hrest⟩ := dispatchLoop_messages_extend model stream tools
      (msgs ++ LCMessage.ai (model msgs).content (model msgs).tool_calls
        :: (processToolCalls tools (model msgs).tool_calls).2) fr (tr + 1)
    refine ⟨rest, ?_⟩
    rw [hrest, hcalls]
    simp [processToolCalls, herr]
  · rw [dispatchLoop, if_neg hnz, dif_neg hgt]
    dsimp only
    have hpos := dispatchLoop_invocations_pos model stream tools
      (msgs ++ LCMessage.ai (model msgs).content (model msgs).tool_calls
        :: (processToolCalls tools (model msgs).tool_calls).2) fr (tr + 1)
    omega

/-- C7 witness: an unknown tool name (registry returns none): the error
string is recorded and the loop goes on to a second model invocation. -/
theorem tool_failure_handled_witness :
    toolResultString (fun _ => none) ⟨"mystery_tool", "q", "i9"⟩
        = "Tool error: unable to complete " ++ "mystery_tool" ++
          ". Please try again." ∧
    (∃ rest, (dispatchLoop
        (fun ms => if ms.length ≤ 1
          then ⟨"", [⟨"mystery_tool", "q", "i9"⟩]⟩ else ⟨"done", []⟩)
        (fun _ => []) (fun _ => none) [LCMessage.human "x"] "" 0).messages
      = [LCMessage.human "x"]
        ++ [LCMessage.ai ((fun (ms : List LCMessage) => if ms.length ≤ 1
              then (⟨"", [⟨"mystery_tool", "q", "i9"⟩]⟩ : ModelResponse)
              else ⟨"done", []⟩) [LCMessage.human "x"]).content
              [⟨"mystery_tool", "q", "i9"⟩],
            LCMessage.tool ("Tool error: unable to complete " ++
              "mystery_tool" ++ ". Please try again.") "i9" "mystery_tool"]
        ++ rest) ∧
    2 ≤ (dispatchLoop
        (fun ms => if ms.length ≤ 1
          then ⟨"", [⟨"mystery_tool", "q", "i9"⟩]⟩ else ⟨"done", []⟩)
        (fun _ => []) (fun _ => none) [LCMessage.human "x"] "" 0).invocations :=
  tool_failure_handled
    (fun ms => if ms.length ≤ 1
      then ⟨"", [⟨"mystery_tool", "q", "i9"⟩]⟩ else ⟨"done", []⟩)
    (fun _ => []) (fun _ => none) [LCMessage.human "x"] "" 0
    ⟨"mystery_tool", "q", "i9"⟩ (by decide) (Or.inl rfl) (by decide)

-- ── api/chat.py: the /stream endpoint ────────────────────────────────────────

/-- `ChatRequest` (chat.py lines 29-32). -/
structure ChatRequest where
  user_id : String
  message : String
  conversation_id : Option String
deriving Repr, DecidableEq

/-- Python truthiness of `x or d` for an optional string: `None` and the
empty string are falsy (chat.py lines 55 and 61). -/
def pyOr (x : Option String) (d : String) : String :=
  match x with
  | none => d
  | some s => if s = "" then d else s

/-- What one call of the `/stream` endpoint produces, with the collaborator
calls it made: events sent to the caller, rows written to the store,
LLM invocations, summarizer invocations. -/
structure ChatOutcome where
  events : List SSEEvent
  store_writes : Nat
  llm_invocations : Nat
  summarizer_invocations : Nat
deriving Repr, DecidableEq

/-- `chat_stream` (chat.py lines 50-161) over one conversation's persisted
rows `db`. The over-length check runs before anything else; on the accepted
path the user turn is saved (one store write), the context is built (letting
a summarizer failure escape, as the code does at line 65), the generator
runs, and the assistant reply is saved (second store write). `new_cid` stands
for the freshly generated `uuid4` string. -/
def chat_stream {ε : Type} (count : String → Nat)
    (ainvoke : List LCMessage → Except ε String)
    (model : List LCMessage → ModelResponse)
    (stream : List LCMessage → List String) (tools : ToolRegistry)
    (db : List Message) (body : ChatRequest) (new_cid : String) :
    Except ε ChatOutcome :=
  if body.message.length > MAX_MESSAGE_LENGTH then
    Except.ok
      { events := [SSEEvent.token
          "Your message is too long. Please keep it under 2000 characters.",
          SSEEvent.done (pyOr body.conversation_id "")],
        store_writes := 0, llm_invocations := 0, summarizer_invocations := 0 }
  else
    let conversation_id := pyOr body.conversation_id new_cid
    let db_messages := db ++ [⟨"user", body.message⟩]
    let bc := build_context count ainvoke db_messages
    match bc.1 with
    | Except.error e => Except.error e
    | Except.ok messages =>
        let g := event_generator model stream tools messages conversation_id
        Except.ok
          { events := g.events, store_writes := 2,
            llm_invocations := g.invocations, summarizer_invocations := bc.2 }

/-- C9: a request whose message exceeds `MAX_MESSAGE_LENGTH` characters is
rejected before any collaborator call — zero store writes, zero LLM
invocations, zero summarizer invocations — and the caller receives exactly a
friendly final-answer-shaped token event followed by a well-formed terminal
done event, never an error. -/
theorem long_message_rejected {ε : Type} (count : String → Nat)
    (ainvoke : List LCMessage → Except ε String)
    (model : List LCMessage → ModelResponse)
    (stream : List LCMessage → List String) (tools : ToolRegistry)
    (db : List Message) (body : ChatRequest) (new_cid : String)
    (h : MAX_MESSAGE_LENGTH < body.message.length) :
    chat_stream count ainvoke model stream tools db body new_cid
      = Except.ok
          { events := [SSEEvent.token
              "Your message is too long. Please keep it under 2000 characters.",
              SSEEvent.done (pyOr body.conversation_id "")],
            store_writes := 0, llm_invocations := 0,
            summarizer_invocations := 0 } := by
  rw [chat_stream, if_pos h]

/-- A 2001-character message, one character over the input ceiling. -/
def longMessage : String := String.mk (List.replicate 2001 'a')

/-- C9 witness: a concrete 2001-character message is rejected with the
friendly token event plus done event and zero collaborator calls. -/
theorem long_message_rejected_witness :
    chat_stream (fun s => s.length)
        (fun _ => (Except.ok "digest" : Except Unit String))
        (fun _ => ⟨"Hello!", []⟩) (fun _ => []) (fun _ => none)
        [] ⟨"u1", longMessage, none⟩ "fresh-id"
      = Except.ok
          { events := [SSEEvent.token
              "Your message is too long. Please keep it under 2000 characters.",
              SSEEvent.done (pyOr (none : Option String) "")],
            store_writes := 0, llm_invocations := 0,
            summarizer_invocations := 0 } :=
  long_message_rejected (fun s => s.length)
    (fun _ => (Except.ok "digest" : Except Unit String))
    (fun _ => ⟨"Hello!", []⟩) (fun _ => []) (fun _ => none)
    [] ⟨"u1", longMessage, none⟩ "fresh-id"
    (by unfold longMessage MAX_MESSAGE_LENGTH
        show 2000 < (List.replicate 2001 'a').length
        rw [List.length_replicate]
        omega)

end ECom
